import Mathlib

/-!
Shallow embedding of `src/demo.cpp`, a two-technique GPU culling and
indirect-draw demo.  GLSL `float` scalars are modelled as rationals; GLSL
`uint` values that can only hold small counts and indices are modelled as
naturals.  The two compute shaders are embedded as sequential folds of their
per-invocation bodies over the invocation range of the dispatch (the dispatch
launches `ceil(n / 256) * 256` invocations; the shader guards `gid >=
total_element_count` itself).  Buffer writes are recorded as explicit
`(slot, value)` write lists so that compaction properties can be stated.
-/

/-- A four-component vector with rational components, modelling GLSL `vec4`. -/
structure Vec4Q where
  x : ℚ
  y : ℚ
  z : ℚ
  w : ℚ
deriving DecidableEq

/-- A 4×4 matrix with rational entries, modelling GLSL `mat4` by its four
columns (GLSL matrices are column-major; `m * v` combines the columns). -/
structure Mat4Q where
  c0 : Vec4Q
  c1 : Vec4Q
  c2 : Vec4Q
  c3 : Vec4Q
deriving DecidableEq

/-- GLSL `mat4 * vec4`: linear combination of the matrix columns by the
vector components. -/
def Mat4Q.mulVec (m : Mat4Q) (v : Vec4Q) : Vec4Q :=
  { x := m.c0.x * v.x + m.c1.x * v.y + m.c2.x * v.z + m.c3.x * v.w
    y := m.c0.y * v.x + m.c1.y * v.y + m.c2.y * v.z + m.c3.y * v.w
    z := m.c0.z * v.x + m.c1.z * v.y + m.c2.z * v.z + m.c3.z * v.w
    w := m.c0.w * v.x + m.c1.w * v.y + m.c2.w * v.z + m.c3.w * v.w }

/-- Per-element record of the Instance Store: `struct InstanceData { vec2
position; vec2 size; vec4 color; }` (demo.cpp lines 33-37). -/
structure InstanceData where
  position : ℚ × ℚ
  size : ℚ × ℚ
  color : Vec4Q
deriving DecidableEq

/-- `struct DrawElementsIndirectCommand { uint count; uint instanceCount;
uint firstIndex; uint baseVertex; uint baseInstance; }` (demo.cpp 39-45). -/
structure DrawElementsIndirectCommand where
  count : ℕ
  instanceCount : ℕ
  firstIndex : ℕ
  baseVertex : ℕ
  baseInstance : ℕ
deriving DecidableEq

/-- The five 4-byte words of a command record, in buffer order: the word at
byte offset `4*k` is entry `k` of this list. -/
def DrawElementsIndirectCommand.words (c : DrawElementsIndirectCommand) : List ℕ :=
  [c.count, c.instanceCount, c.firstIndex, c.baseVertex, c.baseInstance]

/-- Read a command record back from its five buffer words. -/
def commandOfWords (l : List ℕ) : DrawElementsIndirectCommand :=
  { count := l.getD 0 0
    instanceCount := l.getD 1 0
    firstIndex := l.getD 2 0
    baseVertex := l.getD 3 0
    baseInstance := l.getD 4 0 }

/-- `const unsigned int MAX_ELEMENTS = 1000000` (demo.cpp line 18). -/
def MAX_ELEMENTS : ℕ := 1000000

/-- `enum RenderMode` (demo.cpp lines 21-24). -/
inductive RenderMode where
  | MICRO_BATCH_INDIRECT
  | INSTANCED_INDIRECT
deriving DecidableEq

/-- `unsigned int num_groups = (element_count + 255) / 256` (demo.cpp 346). -/
def numGroups (n : ℕ) : ℕ := (n + 255) / 256

/-- Total invocations launched by `glDispatchCompute(num_groups, 1, 1)` with
`local_size_x = 256`: invocation ids are `0, ..., numGroups n * 256 - 1`. -/
def numInvocations (n : ℕ) : ℕ := numGroups n * 256

/-- The per-element frustum test shared verbatim by both compute shaders
(demo.cpp 69-71 and 139-141): transform `position` by `projection` as
`projection * vec4(position, 0.0, 1.0)` and test
`clip.x >= -clip.w && clip.x <= clip.w && clip.y >= -clip.w && clip.y <= clip.w`. -/
def clip_pos (projection : Mat4Q) (position : ℚ × ℚ) : Vec4Q :=
  projection.mulVec { x := position.1, y := position.2, z := 0, w := 1 }

/-- `is_visible` from the culling shaders (demo.cpp 70-71, 140-141). -/
def is_visible (projection : Mat4Q) (position : ℚ × ℚ) : Bool :=
  let c := clip_pos projection position
  decide (-c.w ≤ c.x) && decide (c.x ≤ c.w) && decide (-c.w ≤ c.y) && decide (c.y ≤ c.w)

/-- Modelled from the spec: the reference CPU-side visibility evaluation the
spec demands ("classify visible iff the clip coordinate's x and y components
both lie within `[-w, w]`", i.e. `|x| ≤ w ∧ |y| ≤ w`, z ignored).  This is
deliberately written from the spec's words, to be compared with the
shader-derived `is_visible`. -/
def cpuReferenceVisible (projection : Mat4Q) (position : ℚ × ℚ) : Prop :=
  |(clip_pos projection position).x| ≤ (clip_pos projection position).w ∧
  |(clip_pos projection position).y| ≤ (clip_pos projection position).w

/-- The element indices below `n` that pass the frustum test, in index
order. -/
def visibleList (instances : ℕ → InstanceData) (projection : Mat4Q) (n : ℕ) : List ℕ :=
  (List.range n).filter (fun gid => is_visible projection (instances gid).position)

/-- One invocation of the micro-batch culling shader `main` (demo.cpp 60-83)
acting on the state `(visible_count, command writes so far)`: return early
when `gid >= total_element_count`; otherwise, when visible, take the slot
`atomicCounterIncrement(visible_count)` and record the write of the command
`{count 6, instanceCount 1, firstIndex 0, baseVertex 0, baseInstance gid}`
at that slot. -/
def microStep (instances : ℕ → InstanceData) (projection : Mat4Q) (n : ℕ)
    (s : ℕ × List (ℕ × DrawElementsIndirectCommand)) (gid : ℕ) :
    ℕ × List (ℕ × DrawElementsIndirectCommand) :=
  if n ≤ gid then s
  else if is_visible projection (instances gid).position then
    (s.1 + 1, s.2 ++ [(s.1, ⟨6, 1, 0, 0, gid⟩)])
  else s

/-- A whole micro-batch culling dispatch for a frame: the host resets the
atomic counter to 0 (demo.cpp 337-339) and dispatches `numGroups n` groups of
256 invocations (demo.cpp 346, 353); the result is the final counter value
and the list of command-buffer writes in slot order. -/
def cullMicrobatchFrame (instances : ℕ → InstanceData) (projection : Mat4Q) (n : ℕ) :
    ℕ × List (ℕ × DrawElementsIndirectCommand) :=
  (List.range (numInvocations n)).foldl (microStep instances projection n) (0, [])

/-- The compacted command writes produced for a run of visible elements when
the counter starts at `c`: the k-th visible element gets slot `c + k`. -/
def assignCmdSlots (c : ℕ) : List ℕ → List (ℕ × DrawElementsIndirectCommand)
  | [] => []
  | g :: gs => (c, ⟨6, 1, 0, 0, g⟩) :: assignCmdSlots (c + 1) gs

/-- State of the instanced culling dispatch: the single shared command record
(binding 2), the atomic counter, and the writes into `visible_ids`
(binding 1). -/
structure InstCullState where
  command : DrawElementsIndirectCommand
  visible_count : ℕ
  idWrites : List (ℕ × ℕ)
deriving DecidableEq

/-- One invocation of the instanced culling shader `main` (demo.cpp 123-147):
invocation 0 first rewrites the shared command to
`{count 6, instanceCount 0, firstIndex 0, baseVertex 0, baseInstance 0}`
(before the `gid >= total_element_count` guard); then every invocation below
the guard that finds its element visible takes the slot
`atomicCounterIncrement(visible_count)` and records `visible_ids[slot] = gid`. -/
def instancedStep (instances : ℕ → InstanceData) (projection : Mat4Q) (n : ℕ)
    (s : InstCullState) (gid : ℕ) : InstCullState :=
  let s0 := if gid = 0 then { s with command := ⟨6, 0, 0, 0, 0⟩ } else s
  if n ≤ gid then s0
  else if is_visible projection (instances gid).position then
    { s0 with visible_count := s0.visible_count + 1,
              idWrites := s0.idWrites ++ [(s0.visible_count, gid)] }
  else s0

/-- A whole instanced culling dispatch for a frame: counter reset to 0 by the
host, command record still holding whatever the previous frame left there
(`prev`), and `numGroups n * 256` invocations. -/
def cullInstancedFrame (instances : ℕ → InstanceData) (projection : Mat4Q) (n : ℕ)
    (prev : DrawElementsIndirectCommand) : InstCullState :=
  (List.range (numInvocations n)).foldl (instancedStep instances projection n)
    { command := prev, visible_count := 0, idWrites := [] }

/-- The compacted `visible_ids` writes for a run of visible elements when the
counter starts at `c`. -/
def assignIdSlots (c : ℕ) : List ℕ → List (ℕ × ℕ)
  | [] => []
  | g :: gs => (c, g) :: assignIdSlots (c + 1) gs

/-- `glCopyBufferSubData(GL_COPY_READ_BUFFER, GL_COPY_WRITE_BUFFER, 0,
sizeof(GLuint), sizeof(GLuint))` (demo.cpp 386-388): copy the 4-byte counter
value into the command buffer at byte offset `sizeof(GLuint) = 4`, i.e. into
word index 1 of the shared command record. -/
def copyCounterIntoCommand (cmdWords : List ℕ) (counterValue : ℕ) : List ℕ :=
  cmdWords.set 1 counterValue

/-- The named uniforms of the graphics program, in declaration order
(demo.cpp 171-172). -/
def renderProgramUniformNames : List String := ["projection", "is_instanced_mode"]

/-- `glGetUniformLocation`: `some` location when the name is an active
uniform of the program, `none` (GL returns -1) otherwise. -/
def glGetUniformLocation (names : List String) (s : String) : Option ℕ :=
  names.indexOf? s

/-- `glUniform1i` on a uniform store keyed by uniform name: a call with
location -1 (name not found) is silently ignored by GL; otherwise the named
uniform is updated. -/
def glUniform1i (names : List String) (store : String → ℤ) (name : String) (v : ℤ) :
    String → ℤ :=
  match glGetUniformLocation names name with
  | none => store
  | some _ => Function.update store name v

/-- After `glLinkProgram`, GL initializes every uniform to zero. -/
def defaultUniformStore : String → ℤ := fun _ => 0

/-- The uniform name string the host passes to `glGetUniformLocation` for the
mode flag before each draw: `"is_instanced_mode"` in micro-batch mode
(demo.cpp 371) and `"is__instanced_mode"` in instanced mode (demo.cpp 381). -/
def hostModeUniformName : RenderMode → String
  | RenderMode.MICRO_BATCH_INDIRECT => "is_instanced_mode"
  | RenderMode.INSTANCED_INDIRECT => "is__instanced_mode"

/-- The integer value the host passes in that `glUniform1i` call: 0 in
micro-batch mode, 1 in instanced mode (demo.cpp 371, 381). -/
def hostModeUniformValue : RenderMode → ℤ
  | RenderMode.MICRO_BATCH_INDIRECT => 0
  | RenderMode.INSTANCED_INDIRECT => 1

/-- The graphics program's uniform store at draw time, after the host's
per-frame mode-flag `glUniform1i` call. -/
def uniformStoreAtDraw (mode : RenderMode) : String → ℤ :=
  glUniform1i renderProgramUniformNames defaultUniformStore
    (hostModeUniformName mode) (hostModeUniformValue mode)

/-- The value of the shader's `uniform bool is_instanced_mode` as seen by the
vertex stage of a frame in the given mode (a GLSL bool uniform set via
`glUniform1i` is true iff the stored integer is nonzero). -/
def is_instanced_mode_value (mode : RenderMode) : Bool :=
  uniformStoreAtDraw mode "is_instanced_mode" != 0

/-- The vertex stage's element-index resolution (demo.cpp 177-184): when
`is_instanced_mode` is set, `instance_id = visible_ids[gl_InstanceID]`;
otherwise `instance_id = gl_BaseInstance`. -/
def vsInstanceId (is_instanced : Bool) (visible_ids : ℕ → ℕ)
    (glInstanceID : ℕ) (glBaseInstance : ℕ) : ℕ :=
  if is_instanced then visible_ids glInstanceID else glBaseInstance

/-- The base quad's corner positions `quad_vertices` (demo.cpp 255). -/
def quad_vertices : List (ℚ × ℚ) :=
  [(-(1/2), -(1/2)), (1/2, -(1/2)), (1/2, 1/2), (-(1/2), 1/2)]

/-- The vertex stage's output for one resolved element: each base corner is
scaled and translated by the element's record
(`final_pos = a_pos * size + position`, demo.cpp 190) and projected
(`projection * vec4(final_pos, 0, 1)`, demo.cpp 191); the flat per-instance
color is the element's color (demo.cpp 188). -/
def vsOutput (instances : ℕ → InstanceData) (projection : Mat4Q) (instance_id : ℕ) :
    List Vec4Q × Vec4Q :=
  ((quad_vertices.map (fun a =>
      clip_pos projection
        (a.1 * (instances instance_id).size.1 + (instances instance_id).position.1,
         a.2 * (instances instance_id).size.2 + (instances instance_id).position.2))),
   (instances instance_id).color)

/-- Apply a list of `(slot, command)` writes to the command buffer. -/
def applyCmdWrites (prev : ℕ → DrawElementsIndirectCommand)
    (ws : List (ℕ × DrawElementsIndirectCommand)) : ℕ → DrawElementsIndirectCommand :=
  ws.foldl (fun b w => Function.update b w.1 w.2) prev

/-- Apply a list of `(slot, id)` writes to the `visible_ids` buffer. -/
def applyIdWrites (prev : ℕ → ℕ) (ws : List (ℕ × ℕ)) : ℕ → ℕ :=
  ws.foldl (fun b w => Function.update b w.1 w.2) prev

/-- The quads rendered by one indirect command: `cmd.instanceCount` instances,
`gl_InstanceID` running from 0, `gl_BaseInstance = cmd.baseInstance`, each
resolved by the vertex stage under the given mode flag. -/
def drawCommandQuads (instances : ℕ → InstanceData) (projection : Mat4Q)
    (flag : Bool) (visible_ids : ℕ → ℕ) (cmd : DrawElementsIndirectCommand) :
    List (List Vec4Q × Vec4Q) :=
  (List.range cmd.instanceCount).map (fun j =>
    vsOutput instances projection (vsInstanceId flag visible_ids j cmd.baseInstance))

/-- The full rendered output of a micro-batch frame (demo.cpp 370-379): cull,
read the counter back as `gpu_draw_calls`, then
`glMultiDrawElementsIndirect` over the first `gpu_draw_calls` commands of the
command buffer, with the mode flag the host managed to set for this mode.
`visBuf` is whatever happens to sit behind SSBO binding 1 at draw time (it is
only read when the flag is true). -/
def microFrameRenderedQuads (instances : ℕ → InstanceData) (projection : Mat4Q)
    (n : ℕ) (prevCmds : ℕ → DrawElementsIndirectCommand) (visBuf : ℕ → ℕ) :
    List (List Vec4Q × Vec4Q) :=
  let r := cullMicrobatchFrame instances projection n
  ((List.range r.1).map (applyCmdWrites prevCmds r.2)).flatMap
    (drawCommandQuads instances projection
      (is_instanced_mode_value RenderMode.MICRO_BATCH_INDIRECT) visBuf)

/-- The full rendered output of an instanced frame (demo.cpp 380-392): cull,
copy the counter into word 1 of the shared command, then
`glDrawElementsIndirect` on that single command, the vertex stage resolving
ids under the mode flag the host managed to set for this mode, with
`visible_ids` behind binding 1. -/
def instancedFrameRenderedQuads (instances : ℕ → InstanceData) (projection : Mat4Q)
    (n : ℕ) (prevCmd : DrawElementsIndirectCommand) (prevVis : ℕ → ℕ) :
    List (List Vec4Q × Vec4Q) :=
  let st := cullInstancedFrame instances projection n prevCmd
  drawCommandQuads instances projection
    (is_instanced_mode_value RenderMode.INSTANCED_INDIRECT)
    (applyIdWrites prevVis st.idWrites)
    (commandOfWords (copyCounterIntoCommand st.command.words st.visible_count))

/-- Which barrier classes a `glMemoryBarrier` call covers. -/
structure BarrierBits where
  command : Bool
  shaderStorage : Bool
  atomicCounter : Bool
deriving DecidableEq

/-- The host-side events of one iteration of the main loop, in program
order. -/
inductive FrameEvent where
  | PollEvents
  | ClearFramebuffer
  | BuildUI
  | ResetCounter
  | BindCullBuffers
  | DispatchCull
  | MemoryBarrier (bits : BarrierBits)
  | ReadbackCounter
  | PatchInstanceCount
  | Draw
  | RenderOverlay
  | Present
deriving DecidableEq

/-- One iteration of the main loop (demo.cpp 313-401) as an event trace:
`glfwPollEvents`/`glClear` (316-318), UI build (321-334), counter reset
(337-339), buffer binds (343-344 and per-mode), the culling dispatch
(353/360), `glMemoryBarrier(GL_COMMAND_BARRIER_BIT |
GL_SHADER_STORAGE_BARRIER_BIT | GL_ATOMIC_COUNTER_BARRIER_BIT)` (363), then
per mode: counter readback and multi-draw (374-379) or the
counter-into-command copy and single draw (386-391), then
`ImGui_ImplOpenGL3_RenderDrawData` (396-397) and `glfwSwapBuffers` (398). -/
def frameTrace : RenderMode → List FrameEvent
  | RenderMode.MICRO_BATCH_INDIRECT =>
    [FrameEvent.PollEvents, FrameEvent.ClearFramebuffer, FrameEvent.BuildUI,
     FrameEvent.ResetCounter, FrameEvent.BindCullBuffers, FrameEvent.DispatchCull,
     FrameEvent.MemoryBarrier ⟨true, true, true⟩, FrameEvent.ReadbackCounter,
     FrameEvent.Draw, FrameEvent.RenderOverlay, FrameEvent.Present]
  | RenderMode.INSTANCED_INDIRECT =>
    [FrameEvent.PollEvents, FrameEvent.ClearFramebuffer, FrameEvent.BuildUI,
     FrameEvent.ResetCounter, FrameEvent.BindCullBuffers, FrameEvent.DispatchCull,
     FrameEvent.MemoryBarrier ⟨true, true, true⟩, FrameEvent.PatchInstanceCount,
     FrameEvent.Draw, FrameEvent.RenderOverlay, FrameEvent.Present]

/-- The GPU buffer objects created in demo.cpp 271-286. -/
inductive BufferObject where
  | instance_ssbo
  | visible_id_ssbo
  | command_buffer
  | counter_buffer
deriving DecidableEq

/-- Buffer bound to SSBO binding 1 (the command array) during the micro-batch
culling dispatch: `glBindBufferBase(GL_SHADER_STORAGE_BUFFER, 1,
command_buffer)` (demo.cpp 352). -/
def microbatchDispatchCommandTarget : BufferObject := BufferObject.command_buffer

/-- Buffer bound to SSBO binding 2 (the single shared command) during the
instanced culling dispatch: `glBindBufferBase(GL_SHADER_STORAGE_BUFFER, 2,
command_buffer)` (demo.cpp 359). -/
def instancedDispatchCommandTarget : BufferObject := BufferObject.command_buffer

/-- Buffer bound to `GL_DRAW_INDIRECT_BUFFER` for the micro-batch draw
(demo.cpp 372). -/
def microbatchDrawIndirectSource : BufferObject := BufferObject.command_buffer

/-- Buffer bound to `GL_DRAW_INDIRECT_BUFFER` for the instanced draw
(demo.cpp 390). -/
def instancedDrawIndirectSource : BufferObject := BufferObject.command_buffer

/-- Capacity of the command buffer, in command records:
`glBufferData(GL_DRAW_INDIRECT_BUFFER, MAX_ELEMENTS * sizeof(GLuint) * 5, ...)`
(demo.cpp 282). -/
def commandBufferCapacityRecords : ℕ := MAX_ELEMENTS

/-- Capacity of the visible-id buffer, in `GLuint` entries:
`glBufferData(GL_SHADER_STORAGE_BUFFER, MAX_ELEMENTS * sizeof(GLuint), ...)`
(demo.cpp 278). -/
def visibleIdBufferCapacityEntries : ℕ := MAX_ELEMENTS

/-- Lower bound of the `ImGui::SliderInt("Element Count", ...)` config
surface (demo.cpp 328). -/
def sliderMinElements : ℕ := 1000

/-- Upper bound of that slider (demo.cpp 328). -/
def sliderMaxElements : ℕ := MAX_ELEMENTS

/-- The projection used every frame:
`glm::ortho(-1, 1, -1, 1, -1, 1)` (demo.cpp 341), written out by columns. -/
def orthoProjection : Mat4Q :=
  { c0 := ⟨1, 0, 0, 0⟩
    c1 := ⟨0, 1, 0, 0⟩
    c2 := ⟨0, 0, -1, 0⟩
    c3 := ⟨0, 0, 0, 1⟩ }

/-- The effective per-invocation selection predicate of a dispatch for
element count `n`: the invocation's element is below the guard and passes the
frustum test. -/
def inRangeVisible (instances : ℕ → InstanceData) (projection : Mat4Q) (n : ℕ)
    (g : ℕ) : Bool :=
  decide (g < n) && is_visible projection (instances g).position

/-- The `baseInstance` fields of the commands written by a micro-batch
dispatch, in slot order. -/
def microBaseInstances (instances : ℕ → InstanceData) (projection : Mat4Q) (n : ℕ) :
    List ℕ :=
  (cullMicrobatchFrame instances projection n).2.map (fun w => w.2.baseInstance)

/-- The element indices written into `visible_ids` by an instanced dispatch,
in slot order. -/
def instancedIds (instances : ℕ → InstanceData) (projection : Mat4Q) (n : ℕ)
    (prev : DrawElementsIndirectCommand) : List ℕ :=
  (cullInstancedFrame instances projection n prev).idWrites.map Prod.snd

/-- The concrete scenario of the spec (§8.7): three elements at positions
`(0,0)`, `(2,2)`, `(-0.1, 0.1)` under the orthographic projection; every
further index repeats the off-screen position `(2,2)`. -/
def scenarioInstances : ℕ → InstanceData := fun i =>
  if i = 0 then { position := (0, 0), size := (1/100, 1/100), color := ⟨1, 0, 0, 1⟩ }
  else if i = 1 then { position := (2, 2), size := (1/100, 1/100), color := ⟨0, 1, 0, 1⟩ }
  else if i = 2 then
    { position := (-(1/10), 1/10), size := (1/100, 1/100), color := ⟨0, 0, 1, 1⟩ }
  else { position := (2, 2), size := (1/100, 1/100), color := ⟨1, 1, 1, 1⟩ }

/-- A configuration that separates the two render modes: elements 0 and 1
both sit at the origin (visible) with different colors, every other element
is off screen at `(2,2)`. -/
def bugInstances : ℕ → InstanceData := fun i =>
  if i = 0 then { position := (0, 0), size := (1/100, 1/100), color := ⟨1, 0, 0, 1⟩ }
  else if i = 1 then { position := (0, 0), size := (1/100, 1/100), color := ⟨0, 1, 0, 1⟩ }
  else { position := (2, 2), size := (1/100, 1/100), color := ⟨0, 0, 1, 1⟩ }

/-- A configuration in which every element sits at the origin, so every
active element is visible. -/
def allVisibleInstances : ℕ → InstanceData := fun _ =>
  { position := (0, 0), size := (1/100, 1/100), color := ⟨1, 1, 1, 1⟩ }

/-- An arbitrary leftover command-buffer content for concrete frames. -/
def leftoverCmds : ℕ → DrawElementsIndirectCommand := fun _ => ⟨0, 0, 0, 0, 0⟩

/-- A leftover per-element command such as a preceding micro-batch frame
writes (element index 42 in `baseInstance`). -/
def leftoverMicroCmd : DrawElementsIndirectCommand := ⟨6, 1, 0, 0, 42⟩

/-- An arbitrary leftover `visible_ids` buffer content. -/
def leftoverVis : ℕ → ℕ := fun _ => 0

/-! ## Helper lemmas about the culling folds -/

/-- The shader's boolean frustum test holds exactly when the spec's reference
CPU-side evaluation does. -/
theorem is_visible_iff_cpuReferenceVisible (projection : Mat4Q) (position : ℚ × ℚ) :
    is_visible projection position = true ↔ cpuReferenceVisible projection position := by
  simp only [is_visible, Bool.and_eq_true, decide_eq_true_eq, cpuReferenceVisible, abs_le]
  tauto

/-- Closed form of the micro-batch fold: starting from counter `c` and write
list `ws`, processing `gs` appends one compacted command per selected
element. -/
theorem micro_foldl_eq (instances : ℕ → InstanceData) (projection : Mat4Q) (n : ℕ)
    (gs : List ℕ) : ∀ (c : ℕ) (ws : List (ℕ × DrawElementsIndirectCommand)),
    gs.foldl (microStep instances projection n) (c, ws)
      = (c + (gs.filter (inRangeVisible instances projection n)).length,
         ws ++ assignCmdSlots c (gs.filter (inRangeVisible instances projection n))) := by
  induction gs with
  | nil => intro c ws; simp [assignCmdSlots]
  | cons g gs ih =>
    intro c ws
    rw [List.foldl_cons, List.filter_cons]
    by_cases hn : n ≤ g
    · have hp : inRangeVisible instances projection n g = false := by
        simp [inRangeVisible, Nat.not_lt.mpr hn]
      have hstep : microStep instances projection n (c, ws) g = (c, ws) := by
        simp [microStep, hn]
      rw [if_neg (by simp [hp]), hstep, ih c ws]
    · have hglt : g < n := Nat.lt_of_not_le hn
      by_cases hv : is_visible projection (instances g).position = true
      · have hp : inRangeVisible instances projection n g = true := by
          simp [inRangeVisible, hglt, hv]
        have hstep : microStep instances projection n (c, ws) g
            = (c + 1, ws ++ [(c, ⟨6, 1, 0, 0, g⟩)]) := by
          simp [microStep, hn, hv]
        rw [if_pos hp, hstep, ih]
        simp only [assignCmdSlots, Prod.mk.injEq]
        constructor
        · simp only [List.length_cons]
          omega
        · simp [List.append_assoc]
      · have hp : inRangeVisible instances projection n g = false := by
          simp [inRangeVisible, hv]
        have hstep : microStep instances projection n (c, ws) g = (c, ws) := by
          simp [microStep, hn, hv]
        rw [if_neg (by simp [hp]), hstep, ih c ws]

/-- Over a full dispatch range, the guard makes the invocation-level filter
coincide with the element-level visible list. -/
theorem filter_inRangeVisible_range (instances : ℕ → InstanceData) (projection : Mat4Q)
    {n m : ℕ} (h : n ≤ m) :
    (List.range m).filter (inRangeVisible instances projection n)
      = visibleList instances projection n := by
  have hm : m = n + (m - n) := by omega
  rw [hm, List.range_add, List.filter_append]
  have h1 : (List.range n).filter (inRangeVisible instances projection n)
      = visibleList instances projection n := by
    unfold visibleList
    apply List.filter_congr
    intro g hg
    have hg' : g < n := List.mem_range.mp hg
    simp [inRangeVisible, hg']
  have h2 : ((List.range (m - n)).map (n + ·)).filter
      (inRangeVisible instances projection n) = [] := by
    apply List.filter_eq_nil_iff.mpr
    intro a ha
    rcases List.mem_map.mp ha with ⟨i, _, rfl⟩
    simp [inRangeVisible]
  rw [h1, h2, List.append_nil]

/-- The dispatch rounds the invocation count up, so it covers every element
below `n`. -/
theorem le_numInvocations (n : ℕ) : n ≤ numInvocations n := by
  simp only [numInvocations, numGroups]
  omega

/-- As soon as one element is active, invocation 0 exists. -/
theorem numInvocations_pos {n : ℕ} (h : 1 ≤ n) : 0 < numInvocations n := by
  simp only [numInvocations, numGroups]
  omega

/-- Closed form of a whole micro-batch culling dispatch. -/
theorem cullMicrobatchFrame_eq (instances : ℕ → InstanceData) (projection : Mat4Q)
    (n : ℕ) :
    cullMicrobatchFrame instances projection n
      = ((visibleList instances projection n).length,
         assignCmdSlots 0 (visibleList instances projection n)) := by
  unfold cullMicrobatchFrame
  rw [micro_foldl_eq instances projection n (List.range (numInvocations n)) 0 [],
    filter_inRangeVisible_range instances projection (le_numInvocations n)]
  simp

/-- Field-level behaviour of one instanced-culling invocation. -/
theorem instancedStep_fields (instances : ℕ → InstanceData) (projection : Mat4Q)
    (n : ℕ) (s : InstCullState) (g : ℕ) :
    ((instancedStep instances projection n s g).visible_count
        = s.visible_count + (if inRangeVisible instances projection n g then 1 else 0))
    ∧ ((instancedStep instances projection n s g).idWrites
        = s.idWrites ++ (if inRangeVisible instances projection n g
            then [(s.visible_count, g)] else []))
    ∧ ((instancedStep instances projection n s g).command
        = if g = 0 then ⟨6, 0, 0, 0, 0⟩ else s.command) := by
  unfold instancedStep
  by_cases h0 : g = 0
  · subst h0
    by_cases hn : n ≤ 0
    · have hn0 : n = 0 := Nat.le_zero.mp hn
      subst hn0
      have hp : inRangeVisible instances projection 0 0 = false := by
        simp [inRangeVisible]
      simp [hp]
    · by_cases hv : is_visible projection (instances 0).position = true
      · have hp : inRangeVisible instances projection n 0 = true := by
          simp [inRangeVisible, Nat.lt_of_not_le hn, hv]
        simp [hn, hv, hp]
      · have hp : inRangeVisible instances projection n 0 = false := by
          simp [inRangeVisible, hv]
        simp [hn, hv, hp]
  · by_cases hn : n ≤ g
    · have hp : inRangeVisible instances projection n g = false := by
        simp [inRangeVisible, Nat.not_lt.mpr hn]
      simp [h0, hn, hp]
    · by_cases hv : is_visible projection (instances g).position = true
      · have hp : inRangeVisible instances projection n g = true := by
          simp [inRangeVisible, Nat.lt_of_not_le hn, hv]
        simp [h0, hn, hv, hp]
      · have hp : inRangeVisible instances projection n g = false := by
          simp [inRangeVisible, hv]
        simp [h0, hn, hv, hp]

/-- Closed form of the instanced fold for the counter and the `visible_ids`
writes. -/
theorem inst_foldl_count_writes (instances : ℕ → InstanceData) (projection : Mat4Q)
    (n : ℕ) (gs : List ℕ) : ∀ s : InstCullState,
    ((gs.foldl (instancedStep instances projection n) s).visible_count
        = s.visible_count + (gs.filter (inRangeVisible instances projection n)).length)
    ∧ ((gs.foldl (instancedStep instances projection n) s).idWrites
        = s.idWrites ++ assignIdSlots s.visible_count
            (gs.filter (inRangeVisible instances projection n))) := by
  induction gs with
  | nil => intro s; simp [assignIdSlots]
  | cons g gs ih =>
    intro s
    rw [List.foldl_cons, List.filter_cons]
    obtain ⟨hc, hw, _⟩ := instancedStep_fields instances projection n s g
    obtain ⟨ihc, ihw⟩ := ih (instancedStep instances projection n s g)
    by_cases hp : inRangeVisible instances projection n g = true
    · constructor
      · rw [ihc, hc, hp]
        simp
        omega
      · rw [ihw, hw, hc, hp]
        simp [assignIdSlots, List.append_assoc]
    · have hp' : inRangeVisible instances projection n g = false :=
        Bool.not_eq_true _ ▸ Bool.eq_false_iff.mpr hp
      constructor
      · rw [ihc, hc, hp']
        simp
      · rw [ihw, hw, hc, hp']
        simp

/-- The shared command after the instanced fold: rewritten exactly when
invocation 0 was part of the processed range. -/
theorem inst_foldl_command (instances : ℕ → InstanceData) (projection : Mat4Q)
    (n : ℕ) (gs : List ℕ) : ∀ s : InstCullState,
    (gs.foldl (instancedStep instances projection n) s).command
      = if 0 ∈ gs then ⟨6, 0, 0, 0, 0⟩ else s.command := by
  induction gs with
  | nil => intro s; simp
  | cons g gs ih =>
    intro s
    rw [List.foldl_cons, ih]
    obtain ⟨_, _, hcmd⟩ := instancedStep_fields instances projection n s g
    by_cases h0 : g = 0
    · subst h0
      simp [hcmd]
    · by_cases hmem : 0 ∈ gs
      · simp [hmem, List.mem_cons]
      · rw [if_neg hmem, hcmd, if_neg h0,
          if_neg (by rw [List.mem_cons]; rintro (h | h); exacts [h0 h.symm, hmem h])]

/-- The final counter of an instanced dispatch. -/
theorem cullInstancedFrame_count (instances : ℕ → InstanceData) (projection : Mat4Q)
    (n : ℕ) (prev : DrawElementsIndirectCommand) :
    (cullInstancedFrame instances projection n prev).visible_count
      = (visibleList instances projection n).length := by
  unfold cullInstancedFrame
  obtain ⟨hc, _⟩ := inst_foldl_count_writes instances projection n
    (List.range (numInvocations n)) ⟨prev, 0, []⟩
  rw [hc, filter_inRangeVisible_range instances projection (le_numInvocations n)]
  simp

/-- The `visible_ids` writes of an instanced dispatch, in slot order. -/
theorem cullInstancedFrame_idWrites (instances : ℕ → InstanceData) (projection : Mat4Q)
    (n : ℕ) (prev : DrawElementsIndirectCommand) :
    (cullInstancedFrame instances projection n prev).idWrites
      = assignIdSlots 0 (visibleList instances projection n) := by
  unfold cullInstancedFrame
  obtain ⟨_, hw⟩ := inst_foldl_count_writes instances projection n
    (List.range (numInvocations n)) ⟨prev, 0, []⟩
  rw [hw, filter_inRangeVisible_range instances projection (le_numInvocations n)]
  simp

/-- Whenever at least one element is active, the instanced dispatch fully
reinitializes the shared command record, whatever it held before. -/
theorem cullInstancedFrame_command (instances : ℕ → InstanceData) (projection : Mat4Q)
    {n : ℕ} (prev : DrawElementsIndirectCommand) (h : 1 ≤ n) :
    (cullInstancedFrame instances projection n prev).command = ⟨6, 0, 0, 0, 0⟩ := by
  unfold cullInstancedFrame
  rw [inst_foldl_command]
  rw [if_pos (List.mem_range.mpr (numInvocations_pos h))]

/-- The slots of the compacted command writes are consecutive from `c`. -/
theorem assignCmdSlots_map_fst (l : List ℕ) : ∀ c : ℕ,
    (assignCmdSlots c l).map Prod.fst = List.range' c l.length := by
  induction l with
  | nil => intro c; simp [assignCmdSlots]
  | cons g gs ih =>
    intro c
    simp [assignCmdSlots, List.range'_succ, ih (c + 1)]

/-- The written commands carry exactly the selected element indices, in slot
order. -/
theorem assignCmdSlots_map_baseInstance (l : List ℕ) : ∀ c : ℕ,
    (assignCmdSlots c l).map (fun w => w.2.baseInstance) = l := by
  induction l with
  | nil => intro c; simp [assignCmdSlots]
  | cons g gs ih =>
    intro c
    simp [assignCmdSlots, ih (c + 1)]

/-- Every written command has `count 6`, `instanceCount 1`, `firstIndex 0`,
`baseVertex 0`. -/
theorem assignCmdSlots_map_fixed (l : List ℕ) : ∀ c : ℕ,
    (assignCmdSlots c l).map
        (fun w => (w.2.count, w.2.instanceCount, w.2.firstIndex, w.2.baseVertex))
      = List.replicate l.length (6, 1, 0, 0) := by
  induction l with
  | nil => intro c; simp [assignCmdSlots]
  | cons g gs ih =>
    intro c
    simp [assignCmdSlots, ih (c + 1), List.replicate_succ]

/-- The slots of the compacted id writes are consecutive from `c`. -/
theorem assignIdSlots_map_fst (l : List ℕ) : ∀ c : ℕ,
    (assignIdSlots c l).map Prod.fst = List.range' c l.length := by
  induction l with
  | nil => intro c; simp [assignIdSlots]
  | cons g gs ih =>
    intro c
    simp [assignIdSlots, List.range'_succ, ih (c + 1)]

/-- The id writes carry exactly the selected element indices, in slot
order. -/
theorem assignIdSlots_map_snd (l : List ℕ) : ∀ c : ℕ,
    (assignIdSlots c l).map Prod.snd = l := by
  induction l with
  | nil => intro c; simp [assignIdSlots]
  | cons g gs ih =>
    intro c
    simp [assignIdSlots, ih (c + 1)]

/-- The `baseInstance` fields written by a micro-batch dispatch are exactly
the visible elements, in slot order. -/
theorem microBaseInstances_eq (instances : ℕ → InstanceData) (projection : Mat4Q)
    (n : ℕ) :
    microBaseInstances instances projection n = visibleList instances projection n := by
  unfold microBaseInstances
  rw [cullMicrobatchFrame_eq, assignCmdSlots_map_baseInstance]

/-- The ids written by an instanced dispatch are exactly the visible
elements, in slot order. -/
theorem instancedIds_eq (instances : ℕ → InstanceData) (projection : Mat4Q)
    (n : ℕ) (prev : DrawElementsIndirectCommand) :
    instancedIds instances projection n prev = visibleList instances projection n := by
  unfold instancedIds
  rw [cullInstancedFrame_idWrites, assignIdSlots_map_snd]

/-- Membership in the visible list. -/
theorem mem_visibleList (instances : ℕ → InstanceData) (projection : Mat4Q)
    (n : ℕ) (g : ℕ) :
    g ∈ visibleList instances projection n
      ↔ g < n ∧ is_visible projection (instances g).position = true := by
  simp [visibleList, List.mem_filter, List.mem_range]

/-- The visible list has no duplicates. -/
theorem visibleList_nodup (instances : ℕ → InstanceData) (projection : Mat4Q)
    (n : ℕ) : (visibleList instances projection n).Nodup :=
  (List.nodup_range n).filter _

/-! ## The mode-flag uniform and the concrete configurations -/

/-- The micro-batch host path looks the mode flag up under its correct
name. -/
theorem glGetUniformLocation_micro :
    glGetUniformLocation renderProgramUniformNames
      (hostModeUniformName RenderMode.MICRO_BATCH_INDIRECT) = some 1 := by
  rfl

/-- The instanced host path queries `"is__instanced_mode"` (double
underscore), which is not among the program's uniforms, so
`glGetUniformLocation` fails. -/
theorem glGetUniformLocation_instanced_none :
    glGetUniformLocation renderProgramUniformNames
      (hostModeUniformName RenderMode.INSTANCED_INDIRECT) = none := by
  rfl

/-- In micro-batch mode the vertex stage sees `is_instanced_mode = false`,
as intended. -/
theorem is_instanced_mode_value_micro :
    is_instanced_mode_value RenderMode.MICRO_BATCH_INDIRECT = false := by
  decide

/-- In instanced mode the `glUniform1i` call is a no-op (location -1), so
the vertex stage still sees the linked default `is_instanced_mode = false`. -/
theorem is_instanced_mode_value_instanced :
    is_instanced_mode_value RenderMode.INSTANCED_INDIRECT = false := by
  decide

/-- A filter over `range n` that accepts exactly 0 and 1. -/
theorem filter_range_two_prefix (p : ℕ → Bool) {n : ℕ} (hn : 2 ≤ n)
    (h0 : p 0 = true) (h1 : p 1 = true) (hrest : ∀ i, 2 ≤ i → p i = false) :
    (List.range n).filter p = [0, 1] := by
  have hm : n = 2 + (n - 2) := by omega
  rw [hm, List.range_add, List.filter_append]
  have ha : (List.range 2).filter p = [0, 1] := by
    have h2 : List.range 2 = [0, 1] := rfl
    rw [h2]
    simp [List.filter_cons, h0, h1]
  have hb : ((List.range (n - 2)).map (2 + ·)).filter p = [] := by
    apply List.filter_eq_nil_iff.mpr
    intro a ha'
    rcases List.mem_map.mp ha' with ⟨i, _, rfl⟩
    simp [hrest (2 + i) (by omega)]
  rw [ha, hb, List.append_nil]

/-- The origin is inside the demo's orthographic frustum. -/
theorem is_visible_origin : is_visible orthoProjection (0, 0) = true := by
  simp [is_visible, clip_pos, Mat4Q.mulVec, orthoProjection]

/-- `(2,2)` is outside the demo's orthographic frustum. -/
theorem not_is_visible_two_two : is_visible orthoProjection (2, 2) = false := by
  simp [is_visible, clip_pos, Mat4Q.mulVec, orthoProjection]

/-- `(-0.1, 0.1)` is inside the demo's orthographic frustum. -/
theorem is_visible_scenario_third :
    is_visible orthoProjection (-(1/10), 1/10) = true := by
  simp [is_visible, clip_pos, Mat4Q.mulVec, orthoProjection]
  norm_num

/-- Under `bugInstances`, exactly elements 0 and 1 are visible. -/
theorem visibleList_bugInstances :
    visibleList bugInstances orthoProjection 1000 = [0, 1] := by
  unfold visibleList
  apply filter_range_two_prefix _ (by norm_num)
  · simpa [bugInstances] using is_visible_origin
  · simpa [bugInstances] using is_visible_origin
  · intro i hi
    have h0 : ¬ (i = 0) := by omega
    have h1 : ¬ (i = 1) := by omega
    simpa [bugInstances, h0, h1] using not_is_visible_two_two

/-- The rendered output of a micro-batch frame at the bug configuration:
elements 0 and 1 are drawn, each once. -/
theorem microRendered_bugInstances :
    microFrameRenderedQuads bugInstances orthoProjection 1000 leftoverCmds leftoverVis
      = [vsOutput bugInstances orthoProjection 0,
         vsOutput bugInstances orthoProjection 1] := by
  simp only [microFrameRenderedQuads]
  rw [cullMicrobatchFrame_eq, visibleList_bugInstances]
  simp [assignCmdSlots, applyCmdWrites, drawCommandQuads, vsInstanceId,
    is_instanced_mode_value_micro, Function.update, List.range_succ]

/-- The rendered output of an instanced frame at the bug configuration:
because the mode flag was never set, every one of the two instances resolves
`instance_id = gl_BaseInstance = 0`, so element 0 is drawn twice. -/
theorem instancedRendered_bugInstances :
    instancedFrameRenderedQuads bugInstances orthoProjection 1000 leftoverMicroCmd
      leftoverVis
      = [vsOutput bugInstances orthoProjection 0,
         vsOutput bugInstances orthoProjection 0] := by
  simp only [instancedFrameRenderedQuads]
  rw [cullInstancedFrame_command bugInstances orthoProjection leftoverMicroCmd
      (by norm_num),
    cullInstancedFrame_count, cullInstancedFrame_idWrites, visibleList_bugInstances]
  simp [DrawElementsIndirectCommand.words, copyCounterIntoCommand, commandOfWords,
    drawCommandQuads, vsInstanceId, is_instanced_mode_value_instanced, assignIdSlots,
    applyIdWrites, Function.update, List.range_succ]

/-- Elements 0 and 1 of the bug configuration render with different flat
colors, so their quads differ. -/
theorem vsOutput_bugInstances_ne :
    vsOutput bugInstances orthoProjection 1 ≠ vsOutput bugInstances orthoProjection 0 := by
  intro h
  have hc := congrArg Prod.snd h
  simp [vsOutput, bugInstances] at hc

/-! ## Claim theorems -/

/-- Claim C1, settled against the code: the vertex shader does resolve the
element index as `visible_ids[gl_InstanceID]` whenever its
`is_instanced_mode` flag is set (first conjunct), but the host's
instanced-mode path passes the misspelled name `"is__instanced_mode"` to
`glGetUniformLocation`, which is not an active uniform of the graphics
program, so the lookup fails, the `glUniform1i` call is a no-op, the flag
keeps its linked default `false`, and the instanced-mode vertex stage in
fact falls back to reading `gl_BaseInstance` — the host never sets
`is_instanced_mode` to 1, contrary to the claim. -/
theorem C1_instanced_mode_flag_never_set :
    (∀ (vis : ℕ → ℕ) (iid bi : ℕ), vsInstanceId true vis iid bi = vis iid)
    ∧ hostModeUniformName RenderMode.INSTANCED_INDIRECT = "is__instanced_mode"
    ∧ glGetUniformLocation renderProgramUniformNames
        (hostModeUniformName RenderMode.INSTANCED_INDIRECT) = none
    ∧ glGetUniformLocation renderProgramUniformNames "is_instanced_mode" = some 1
    ∧ is_instanced_mode_value RenderMode.INSTANCED_INDIRECT = false
    ∧ (∀ (vis : ℕ → ℕ) (iid bi : ℕ),
        vsInstanceId (is_instanced_mode_value RenderMode.INSTANCED_INDIRECT)
          vis iid bi = bi) := by
  refine ⟨fun vis iid bi => rfl, rfl, glGetUniformLocation_instanced_none, rfl,
    is_instanced_mode_value_instanced, fun vis iid bi => ?_⟩
  rw [is_instanced_mode_value_instanced]
  rfl

/-- Claim C2, settled against the code at a concrete failing input: with
`bugInstances` (elements 0 and 1 visible with different colors, the rest off
screen), projection `glm::ortho(-1,1,-1,1,-1,1)` and active count 1000, the
micro-batch frame renders element 1's quad exactly once, while the instanced
frame never renders it (it renders element 0 twice, because the mode-flag
uniform is never set, see C1), so the two rendered outputs are not equal up
to any permutation of element order. -/
theorem C2_mode_outputs_diverge :
    (microFrameRenderedQuads bugInstances orthoProjection 1000 leftoverCmds
        leftoverVis).count (vsOutput bugInstances orthoProjection 1) = 1
    ∧ (instancedFrameRenderedQuads bugInstances orthoProjection 1000 leftoverMicroCmd
        leftoverVis).count (vsOutput bugInstances orthoProjection 1) = 0 := by
  have hne : (vsOutput bugInstances orthoProjection 0
      == vsOutput bugInstances orthoProjection 1) = false :=
    beq_eq_false_iff_ne.mpr (fun hh => vsOutput_bugInstances_ne hh.symm)
  constructor
  · rw [microRendered_bugInstances]
    simp [List.count_cons, hne]
  · rw [instancedRendered_bugInstances]
    simp [List.count_cons, hne]

/-- Claim C3: for every element index below the active count, both culling
variants select the element (its index appears among the written
`baseInstance` fields, respectively among the written `visible_ids`) exactly
when the spec's reference CPU-side evaluation of the same projection on the
same position classifies it visible; indices at or beyond the active count
are never selected and never counted, and both counters count exactly the
visible elements below the active count. -/
theorem C3_visibility_matches_reference (instances : ℕ → InstanceData)
    (projection : Mat4Q) (n : ℕ) (prev : DrawElementsIndirectCommand)
    (gid : ℕ) (h : gid < n) :
    (gid ∈ microBaseInstances instances projection n
        ↔ cpuReferenceVisible projection (instances gid).position)
    ∧ (gid ∈ instancedIds instances projection n prev
        ↔ cpuReferenceVisible projection (instances gid).position)
    ∧ (∀ g, n ≤ g → g ∉ microBaseInstances instances projection n
        ∧ g ∉ instancedIds instances projection n prev)
    ∧ (cullMicrobatchFrame instances projection n).1
        = (visibleList instances projection n).length
    ∧ (cullInstancedFrame instances projection n prev).visible_count
        = (visibleList instances projection n).length := by
  refine ⟨?_, ?_, ?_, ?_, cullInstancedFrame_count instances projection n prev⟩
  · rw [microBaseInstances_eq, mem_visibleList]
    simp [h, is_visible_iff_cpuReferenceVisible]
  · rw [instancedIds_eq, mem_visibleList]
    simp [h, is_visible_iff_cpuReferenceVisible]
  · intro g hg
    constructor
    · rw [microBaseInstances_eq]
      intro hmem
      have hlt := ((mem_visibleList instances projection n g).mp hmem).1
      omega
    · rw [instancedIds_eq]
      intro hmem
      have hlt := ((mem_visibleList instances projection n g).mp hmem).1
      omega
  · rw [cullMicrobatchFrame_eq]

/-- Witness for C3 at the spec's concrete three-element scenario, element 0
of 3 active elements. -/
theorem C3_visibility_matches_reference_witness :
    0 < 3
    ∧ ((0 ∈ microBaseInstances scenarioInstances orthoProjection 3
        ↔ cpuReferenceVisible orthoProjection (scenarioInstances 0).position)
    ∧ (0 ∈ instancedIds scenarioInstances orthoProjection 3 leftoverMicroCmd
        ↔ cpuReferenceVisible orthoProjection (scenarioInstances 0).position)
    ∧ (∀ g, 3 ≤ g → g ∉ microBaseInstances scenarioInstances orthoProjection 3
        ∧ g ∉ instancedIds scenarioInstances orthoProjection 3 leftoverMicroCmd)
    ∧ (cullMicrobatchFrame scenarioInstances orthoProjection 3).1
        = (visibleList scenarioInstances orthoProjection 3).length
    ∧ (cullInstancedFrame scenarioInstances orthoProjection 3 leftoverMicroCmd).visible_count
        = (visibleList scenarioInstances orthoProjection 3).length) :=
  ⟨by decide, C3_visibility_matches_reference scenarioInstances orthoProjection 3
    leftoverMicroCmd 0 (by decide)⟩

/-- Claim C4: in both variants the counter starts this frame at 0 (the trace
resets it before the dispatch, and the dispatch folds from 0), the final
counter equals the number of visible elements, and the written slots are
exactly `[0, finalCount)` in order — each slot below the final count written
exactly once, by pairwise-distinct visible elements, and no slot at or
beyond the final count. -/
theorem C4_counter_reset_and_compaction (instances : ℕ → InstanceData)
    (projection : Mat4Q) (n : ℕ) (prev : DrawElementsIndirectCommand) :
    ((cullMicrobatchFrame instances projection n).2.map Prod.fst
        = List.range (cullMicrobatchFrame instances projection n).1)
    ∧ ((cullInstancedFrame instances projection n prev).idWrites.map Prod.fst
        = List.range (cullInstancedFrame instances projection n prev).visible_count)
    ∧ (cullMicrobatchFrame instances projection n).1
        = (visibleList instances projection n).length
    ∧ (cullInstancedFrame instances projection n prev).visible_count
        = (visibleList instances projection n).length
    ∧ (microBaseInstances instances projection n).Nodup
    ∧ (instancedIds instances projection n prev).Nodup
    ∧ [FrameEvent.ResetCounter, FrameEvent.DispatchCull].Sublist
        (frameTrace RenderMode.MICRO_BATCH_INDIRECT)
    ∧ [FrameEvent.ResetCounter, FrameEvent.DispatchCull].Sublist
        (frameTrace RenderMode.INSTANCED_INDIRECT) := by
  refine ⟨?_, ?_, ?_, cullInstancedFrame_count instances projection n prev, ?_, ?_,
    by decide, by decide⟩
  · rw [cullMicrobatchFrame_eq]
    simp [assignCmdSlots_map_fst, List.range_eq_range']
  · rw [cullInstancedFrame_idWrites, cullInstancedFrame_count]
    simp [assignIdSlots_map_fst, List.range_eq_range']
  · rw [cullMicrobatchFrame_eq]
  · rw [microBaseInstances_eq]
    exact visibleList_nodup instances projection n
  · rw [instancedIds_eq]
    exact visibleList_nodup instances projection n

/-- Claim C5: every command a micro-batch dispatch writes has `count = 6`,
`instanceCount = 1`, `firstIndex = 0`, `baseVertex = 0`; the `baseInstance`
fields are exactly the visible elements' Instance-Store indices, and the
write slots are the consecutive atomically assigned slots `0, 1, ...`. -/
theorem C5_microbatch_command_fields (instances : ℕ → InstanceData)
    (projection : Mat4Q) (n : ℕ) :
    ((cullMicrobatchFrame instances projection n).2.map
        (fun w => (w.2.count, w.2.instanceCount, w.2.firstIndex, w.2.baseVertex))
      = List.replicate (visibleList instances projection n).length (6, 1, 0, 0))
    ∧ microBaseInstances instances projection n = visibleList instances projection n
    ∧ ((cullMicrobatchFrame instances projection n).2.map Prod.fst
        = List.range' 0 (visibleList instances projection n).length) := by
  refine ⟨?_, microBaseInstances_eq instances projection n, ?_⟩
  · rw [cullMicrobatchFrame_eq]
    simp [assignCmdSlots_map_fixed]
  · rw [cullMicrobatchFrame_eq]
    simp [assignCmdSlots_map_fst]

/-- Claim C6: on identical instance data, projection and active count, the
two culling variants end with the same counter value, namely the number of
elements passing the visibility test. -/
theorem C6_visible_counts_agree (instances : ℕ → InstanceData) (projection : Mat4Q)
    (n : ℕ) (prev : DrawElementsIndirectCommand) :
    (cullMicrobatchFrame instances projection n).1
        = (cullInstancedFrame instances projection n prev).visible_count
    ∧ (cullMicrobatchFrame instances projection n).1
        = (visibleList instances projection n).length := by
  have h1 : (cullMicrobatchFrame instances projection n).1
      = (visibleList instances projection n).length := by
    rw [cullMicrobatchFrame_eq]
  exact ⟨h1.trans (cullInstancedFrame_count instances projection n prev).symm, h1⟩

/-- Claim C7: in instanced mode the host's `glCopyBufferSubData` writes the
final counter value into word 1 of the shared command — the `instanceCount`
field — leaving every other word as invocation 0 initialized it
(`count = 6`, `firstIndex = 0`, `baseVertex = 0`, `baseInstance = 0`), so
the command the draw reads is `{6, finalCount, 0, 0, 0}`; and in the frame
trace the patch sits strictly after the barrier and strictly before the
draw. -/
theorem C7_patch_writes_instanceCount (instances : ℕ → InstanceData)
    (projection : Mat4Q) (n : ℕ) (prev : DrawElementsIndirectCommand)
    (h : 1 ≤ n) :
    copyCounterIntoCommand
        (cullInstancedFrame instances projection n prev).command.words
        (cullInstancedFrame instances projection n prev).visible_count
      = [6, (visibleList instances projection n).length, 0, 0, 0]
    ∧ commandOfWords (copyCounterIntoCommand
        (cullInstancedFrame instances projection n prev).command.words
        (cullInstancedFrame instances projection n prev).visible_count)
      = ⟨6, (visibleList instances projection n).length, 0, 0, 0⟩
    ∧ (∀ (c : DrawElementsIndirectCommand) (k i : ℕ), i ≠ 1 →
        (copyCounterIntoCommand c.words k)[i]? = c.words[i]?)
    ∧ [FrameEvent.MemoryBarrier ⟨true, true, true⟩, FrameEvent.PatchInstanceCount,
        FrameEvent.Draw].Sublist (frameTrace RenderMode.INSTANCED_INDIRECT) := by
  have hcmd := cullInstancedFrame_command instances projection prev h
  have hcnt := cullInstancedFrame_count instances projection n prev
  refine ⟨?_, ?_, ?_, by decide⟩
  · rw [hcmd, hcnt]
    rfl
  · rw [hcmd, hcnt]
    rfl
  · intro c k i hi
    simp only [copyCounterIntoCommand]
    exact List.getElem?_set_ne (Ne.symm hi)

/-- Witness for C7 at the spec's concrete three-element scenario. -/
theorem C7_patch_writes_instanceCount_witness :
    1 ≤ 3
    ∧ (copyCounterIntoCommand
        (cullInstancedFrame scenarioInstances orthoProjection 3 leftoverMicroCmd).command.words
        (cullInstancedFrame scenarioInstances orthoProjection 3 leftoverMicroCmd).visible_count
      = [6, (visibleList scenarioInstances orthoProjection 3).length, 0, 0, 0]
    ∧ commandOfWords (copyCounterIntoCommand
        (cullInstancedFrame scenarioInstances orthoProjection 3 leftoverMicroCmd).command.words
        (cullInstancedFrame scenarioInstances orthoProjection 3 leftoverMicroCmd).visible_count)
      = ⟨6, (visibleList scenarioInstances orthoProjection 3).length, 0, 0, 0⟩
    ∧ (∀ (c : DrawElementsIndirectCommand) (k i : ℕ), i ≠ 1 →
        (copyCounterIntoCommand c.words k)[i]? = c.words[i]?)
    ∧ [FrameEvent.MemoryBarrier ⟨true, true, true⟩, FrameEvent.PatchInstanceCount,
        FrameEvent.Draw].Sublist (frameTrace RenderMode.INSTANCED_INDIRECT)) :=
  ⟨by decide, C7_patch_writes_instanceCount scenarioInstances orthoProjection 3
    leftoverMicroCmd (by decide)⟩

/-- Claim C8: every frame runs ResetCounter, the culling dispatch, the
memory barrier, (in instanced mode only) the instance-count patch, the draw,
the overlay render and the present in this strict order, and the single
barrier between dispatch and draw covers the command buffer, general
shader-storage writes, and the atomic counter. -/
theorem C8_frame_order_and_barrier :
    [FrameEvent.ResetCounter, FrameEvent.DispatchCull,
      FrameEvent.MemoryBarrier ⟨true, true, true⟩, FrameEvent.Draw,
      FrameEvent.RenderOverlay, FrameEvent.Present].Sublist
        (frameTrace RenderMode.MICRO_BATCH_INDIRECT)
    ∧ [FrameEvent.ResetCounter, FrameEvent.DispatchCull,
        FrameEvent.MemoryBarrier ⟨true, true, true⟩, FrameEvent.PatchInstanceCount,
        FrameEvent.Draw, FrameEvent.RenderOverlay, FrameEvent.Present].Sublist
          (frameTrace RenderMode.INSTANCED_INDIRECT)
    ∧ FrameEvent.PatchInstanceCount ∉ frameTrace RenderMode.MICRO_BATCH_INDIRECT
    ∧ (∀ mode, (frameTrace mode).count
        (FrameEvent.MemoryBarrier ⟨true, true, true⟩) = 1)
    ∧ (∀ mode b, FrameEvent.MemoryBarrier b ∈ frameTrace mode
        → b = ⟨true, true, true⟩) := by
  refine ⟨by decide, by decide, by decide, ?_, ?_⟩
  · intro mode
    cases mode <;> decide
  · intro mode b hmem
    cases mode <;> simp [frameTrace] at hmem <;> exact hmem

/-- Claim C9: whenever the active element count lies within the config
surface bounds `[1000, MAX_ELEMENTS]`, every slot either culling variant
writes — a per-element command slot or a visible-index slot — is strictly
below the allocated capacity of its buffer (each sized for `MAX_ELEMENTS`
records), and both final counters are at most `MAX_ELEMENTS`; this includes
the extreme `n = MAX_ELEMENTS` with every element visible. -/
theorem C9_writes_within_capacity (instances : ℕ → InstanceData)
    (projection : Mat4Q) (n : ℕ) (prev : DrawElementsIndirectCommand)
    (hmin : sliderMinElements ≤ n) (hmax : n ≤ sliderMaxElements) :
    (∀ s ∈ (cullMicrobatchFrame instances projection n).2.map Prod.fst,
        s < commandBufferCapacityRecords)
    ∧ (∀ s ∈ (cullInstancedFrame instances projection n prev).idWrites.map Prod.fst,
        s < visibleIdBufferCapacityEntries)
    ∧ (cullMicrobatchFrame instances projection n).1 ≤ MAX_ELEMENTS
    ∧ (cullInstancedFrame instances projection n prev).visible_count ≤ MAX_ELEMENTS := by
  have hlen : (visibleList instances projection n).length ≤ n := by
    have hf := List.length_filter_le
      (fun gid => is_visible projection (instances gid).position) (List.range n)
    simpa [visibleList] using hf
  have hnmax : n ≤ MAX_ELEMENTS := by
    simpa [sliderMaxElements] using hmax
  have hslotsM : (cullMicrobatchFrame instances projection n).2.map Prod.fst
      = List.range (visibleList instances projection n).length := by
    rw [cullMicrobatchFrame_eq]
    simp [assignCmdSlots_map_fst, List.range_eq_range']
  have hslotsI : (cullInstancedFrame instances projection n prev).idWrites.map Prod.fst
      = List.range (visibleList instances projection n).length := by
    rw [cullInstancedFrame_idWrites]
    simp [assignIdSlots_map_fst, List.range_eq_range']
  refine ⟨?_, ?_, ?_, ?_⟩
  · intro s hs
    rw [hslotsM] at hs
    have hlt := List.mem_range.mp hs
    simp only [commandBufferCapacityRecords]
    omega
  · intro s hs
    rw [hslotsI] at hs
    have hlt := List.mem_range.mp hs
    simp only [visibleIdBufferCapacityEntries]
    omega
  · have : (cullMicrobatchFrame instances projection n).1
        = (visibleList instances projection n).length := by
      rw [cullMicrobatchFrame_eq]
    omega
  · have := cullInstancedFrame_count instances projection n prev
    omega

/-- Witness for C9 at the capacity extreme: the maximal active count with
every element visible. -/
theorem C9_writes_within_capacity_witness :
    sliderMinElements ≤ MAX_ELEMENTS
    ∧ MAX_ELEMENTS ≤ sliderMaxElements
    ∧ ((∀ s ∈ (cullMicrobatchFrame allVisibleInstances orthoProjection MAX_ELEMENTS).2.map Prod.fst,
        s < commandBufferCapacityRecords)
    ∧ (∀ s ∈ (cullInstancedFrame allVisibleInstances orthoProjection MAX_ELEMENTS
        leftoverMicroCmd).idWrites.map Prod.fst,
        s < visibleIdBufferCapacityEntries)
    ∧ (cullMicrobatchFrame allVisibleInstances orthoProjection MAX_ELEMENTS).1 ≤ MAX_ELEMENTS
    ∧ (cullInstancedFrame allVisibleInstances orthoProjection MAX_ELEMENTS
        leftoverMicroCmd).visible_count ≤ MAX_ELEMENTS) :=
  ⟨by decide, by decide,
    C9_writes_within_capacity allVisibleInstances orthoProjection MAX_ELEMENTS
      leftoverMicroCmd (by decide) (by decide)⟩

/-- Claim C10: both modes bind the very same `command_buffer` object (as the
culling dispatch's command output and as the indirect-draw source), and the
instanced dispatch's first work item rewrites the shared record
unconditionally — whatever the buffer previously held, e.g. a leftover
per-element command from a micro-batch frame, and whatever element 0's
visibility is — so after any instanced dispatch with at least one active
element the first record is exactly `{6, 0, 0, 0, 0}`, independent of the
previous contents. -/
theorem C10_shared_buffer_reinitialized (instances : ℕ → InstanceData)
    (projection : Mat4Q) (n : ℕ) (prev prev' : DrawElementsIndirectCommand)
    (h : 1 ≤ n) :
    microbatchDispatchCommandTarget = BufferObject.command_buffer
    ∧ instancedDispatchCommandTarget = BufferObject.command_buffer
    ∧ microbatchDrawIndirectSource = BufferObject.command_buffer
    ∧ instancedDrawIndirectSource = BufferObject.command_buffer
    ∧ (cullInstancedFrame instances projection n prev).command = ⟨6, 0, 0, 0, 0⟩
    ∧ (cullInstancedFrame instances projection n prev).command
        = (cullInstancedFrame instances projection n prev').command := by
  have h1 := cullInstancedFrame_command instances projection prev h
  have h2 := cullInstancedFrame_command instances projection prev' h
  exact ⟨rfl, rfl, rfl, rfl, h1, h1.trans h2.symm⟩

/-- Witness for C10: an instanced dispatch over the scenario configuration,
with a leftover micro-batch command versus a zeroed record as previous
contents. -/
theorem C10_shared_buffer_reinitialized_witness :
    1 ≤ 3
    ∧ (microbatchDispatchCommandTarget = BufferObject.command_buffer
    ∧ instancedDispatchCommandTarget = BufferObject.command_buffer
    ∧ microbatchDrawIndirectSource = BufferObject.command_buffer
    ∧ instancedDrawIndirectSource = BufferObject.command_buffer
    ∧ (cullInstancedFrame scenarioInstances orthoProjection 3 leftoverMicroCmd).command
        = ⟨6, 0, 0, 0, 0⟩
    ∧ (cullInstancedFrame scenarioInstances orthoProjection 3 leftoverMicroCmd).command
        = (cullInstancedFrame scenarioInstances orthoProjection 3 ⟨0, 0, 0, 0, 0⟩).command) :=
  ⟨by decide, C10_shared_buffer_reinitialized scenarioInstances orthoProjection 3
    leftoverMicroCmd ⟨0, 0, 0, 0, 0⟩ (by decide)⟩
